import Mathlib

/-!
Shallow embedding of the chat_hono repository: a Hono REST backend with a
Socket.IO chat gateway, Redis-backed room presence and a Prisma-backed
chat service.

Conventions of the embedding:
* Redis sets are modelled as duplicate-free `List`s (`sadd` guards against
  duplicates, `srem` filters).
* Prisma rows are records in a `Db` structure; cuid message ids are
  modelled as naturals carrying the same order as the ids, and `DateTime`
  stamps as naturals.
* Each socket handler is a pure function from its inputs and the system
  state to the next state together with the list of emissions it performs.
  A JavaScript argument that may be absent or not a string is an
  `Option String` (with `""` also treated as falsy, as `!groupId` is).
* Thrown service errors are `Except` errors.
-/

namespace ChatHono

/-! ### Data model (prisma schema fragments used by the chat module) -/

inductive MessageType
  | TEXT
  | IMAGE
  | FILE
  | SYSTEM
deriving DecidableEq

inductive GroupMemberRole
  | OWNER
  | ADMIN
  | MEMBER
deriving DecidableEq

structure Group where
  id : String
  createdBy : String
deriving DecidableEq

structure GroupMember where
  userId : String
  groupId : String
  role : GroupMemberRole
  userName : String
deriving DecidableEq

structure Message where
  id : Nat
  content : String
  type : MessageType
  senderId : String
  groupId : String
  replyToId : Option Nat
  createdAt : Nat
deriving DecidableEq

structure Db where
  groups : List Group
  groupMembers : List GroupMember
  messages : List Message
  nextId : Nat
  now : Nat
deriving DecidableEq

/-! ### Redis presence state and set primitives -/

structure SockEntry where
  userId : String
  groupId : String
  socketId : String
deriving DecidableEq

structure Redis where
  ready : Bool
  roomUsers : List (String × String)
  userRooms : List (String × String)
  userSockets : List SockEntry
  typing : List (String × String)
deriving DecidableEq

def sadd {α : Type} [DecidableEq α] (x : α) (l : List α) : List α :=
  if x ∈ l then l else l ++ [x]

def srem {α : Type} [DecidableEq α] (x : α) (l : List α) : List α :=
  l.filter (fun y => decide (y ≠ x))

def socketsOf (r : Redis) (userId groupId : String) : List String :=
  (r.userSockets.filter
    (fun e => decide (e.userId = userId ∧ e.groupId = groupId))).map (·.socketId)

/-! ### RoomManager (part_015 lines 19-85) -/

namespace RoomManager

def addUserToRoom (userId groupId socketId : String) (r : Redis) : Redis :=
  if r.ready = false then r else
  { r with
    roomUsers := sadd (groupId, userId) r.roomUsers
    userRooms := sadd (userId, groupId) r.userRooms
    userSockets := sadd (SockEntry.mk userId groupId socketId) r.userSockets }

def removeUserFromRoom (userId groupId socketId : String) (r : Redis) : Redis :=
  if r.ready = false then r else
  let us := srem (SockEntry.mk userId groupId socketId) r.userSockets
  let remainingSockets :=
    (us.filter (fun e => decide (e.userId = userId ∧ e.groupId = groupId))).length
  if remainingSockets = 0 then
    { r with
      roomUsers := srem (groupId, userId) r.roomUsers
      userRooms := srem (userId, groupId) r.userRooms
      userSockets := us }
  else
    { r with userSockets := us }

def getRoomUsers (groupId : String) (r : Redis) : List String :=
  if r.ready = false then [] else
  (r.roomUsers.filter (fun p => decide (p.1 = groupId))).map (·.2)

def getUserRooms (userId : String) (r : Redis) : List String :=
  if r.ready = false then [] else
  (r.userRooms.filter (fun p => decide (p.1 = userId))).map (·.2)

def isUserInRoom (userId groupId : String) (r : Redis) : Bool :=
  if r.ready = false then false else
  decide ((groupId, userId) ∈ r.roomUsers)

end RoomManager

/-! ### chat.service (concatenated into chat.route.ts, lines 207-704) -/

inductive SvcError
  | NotFoundError
  | ForbiddenError
  | BadRequestError
deriving DecidableEq

def getUserGroupMembership (userId groupId : String) (db : Db) : Option GroupMember :=
  db.groupMembers.find? (fun m => decide (m.userId = userId ∧ m.groupId = groupId))

def verifyGroupMembership (userId groupId : String) (db : Db) : Bool :=
  (getUserGroupMembership userId groupId db).isSome

def verifyGroupAccess (userId groupId : String) (db : Db) : Except SvcError Group :=
  match db.groups.find? (fun g => decide (g.id = groupId)) with
  | none => .error .NotFoundError
  | some group =>
    let isCreator : Bool := decide (group.createdBy = userId)
    let isMember : Bool :=
      decide (0 < (db.groupMembers.filter
        (fun m => decide (m.userId = userId ∧ m.groupId = groupId))).length)
    if !isCreator && !isMember then .error .ForbiddenError else .ok group

structure CreateMessageData where
  content : String
  type : MessageType
  senderId : String
  groupId : String
  replyToId : Option Nat

def createMessage (data : CreateMessageData) (db : Db) :
    Except SvcError (Message × Db) :=
  match verifyGroupAccess data.senderId data.groupId db with
  | .error e => .error e
  | .ok _ =>
    let replyOk : Bool :=
      match data.replyToId with
      | none => true
      | some rid =>
        match db.messages.find? (fun m => decide (m.id = rid)) with
        | none => false
        | some originalMessage => decide (originalMessage.groupId = data.groupId)
    if replyOk = false then .error .BadRequestError
    else
      let msg : Message :=
        { id := db.nextId
          content := data.content
          type := data.type
          senderId := data.senderId
          groupId := data.groupId
          replyToId := data.replyToId
          createdAt := db.now }
      .ok (msg, { db with messages := msg :: db.messages, nextId := db.nextId + 1 })

def byCreatedAtDesc (a b : Message) : Prop := b.createdAt ≤ a.createdAt

instance : DecidableRel byCreatedAtDesc := fun a b => Nat.decLe b.createdAt a.createdAt

instance : IsTotal Message byCreatedAtDesc :=
  ⟨fun a b => Nat.le_total b.createdAt a.createdAt⟩

instance : IsTrans Message byCreatedAtDesc :=
  ⟨fun _ _ _ hab hbc => Nat.le_trans hbc hab⟩

structure MessagesPage where
  messages : List Message
  hasNextPage : Bool
  nextCursor : Option Nat
deriving DecidableEq

def matchesQuery (groupId : String) (cursor : Option Nat) (m : Message) : Bool :=
  decide (m.groupId = groupId) &&
    (match cursor with
     | none => true
     | some c => decide (m.id < c))

def getGroupMessages (groupId userId : String) (limit : Nat) (cursor : Option Nat)
    (db : Db) : Except SvcError MessagesPage :=
  match verifyGroupAccess userId groupId db with
  | .error e => .error e
  | .ok _ =>
    let fetched :=
      (List.insertionSort byCreatedAtDesc
        (db.messages.filter (matchesQuery groupId cursor))).take (limit + 1)
    let hasNextPage : Bool := decide (limit < fetched.length)
    let kept := if hasNextPage then fetched.dropLast else fetched
    let nextCursor : Option Nat :=
      if hasNextPage && !kept.isEmpty then kept.getLast?.map (·.id) else none
    .ok { messages := kept.reverse, hasNextPage := hasNextPage, nextCursor := nextCursor }

def removeUserFromGroup (groupId userId removedBy : String) (db : Db) :
    Except SvcError Db :=
  match getUserGroupMembership removedBy groupId db with
  | none => .error .ForbiddenError
  | some removerMembership =>
    if decide (removerMembership.role ≠ .ADMIN) &&
        decide (removerMembership.role ≠ .OWNER) then
      .error .ForbiddenError
    else
      match getUserGroupMembership userId groupId db with
      | none => .error .NotFoundError
      | some userMembership =>
        if userMembership.role = .OWNER then .error .ForbiddenError
        else
          .ok { db with
                groupMembers := db.groupMembers.filter
                  (fun m => !decide (m.userId = userId ∧ m.groupId = groupId)) }

/-- chat.model.ts `createMessageSchema` content rule:
`z.string().min(1).max(5000)` (applied on the REST route, not the socket path). -/
def createMessageSchemaContentOk (content : String) : Bool :=
  decide (1 ≤ content.length) && decide (content.length ≤ 5000)

/-! ### Socket gateway: events, emissions and system state -/

structure MessageData where
  id : Nat
  content : String
  type : MessageType
  senderId : String
  groupId : String
  replyToId : Option Nat
deriving DecidableEq

inductive Event
  | error (message code : String)
  | joined_group_success (groupId : String) (memberCount : Nat)
  | user_joined_group (userId userName groupId : String) (memberCount : Nat)
  | left_group_success (groupId : String) (memberCount : Nat)
  | user_left_group (userId userName groupId : String) (memberCount : Nat)
  | message_received (m : MessageData)
  | user_typing (userId userName groupId : String)
  | user_stopped_typing (userId groupId : String)
  | group_messages (page : MessagesPage)
  | room_members_update (groupId : String) (onlineMembers : List String)
      (memberCount : Nat)
deriving DecidableEq

/-- Where an emission goes: `sender` is `socket.emit`, `roomExceptSender` is
`socket.to(room).emit` and `room` is `io.to(room).emit`. -/
inductive Target
  | sender
  | roomExceptSender (room : String)
  | room (room : String)
deriving DecidableEq

abbrev Emission := Target × Event

/-- Full system state: Redis, the database, and the socket.io adapter's
room membership (pairs of socket id and room name). -/
structure Sys where
  redis : Redis
  db : Db
  rooms : List (String × String)
deriving DecidableEq

def roomName (groupId : String) : String := "group:" ++ groupId

def allSocketsCount (room : String) (s : Sys) : Nat :=
  (s.rooms.filter (fun p => decide (p.2 = room))).length

/-- A JavaScript `groupId` argument passes `!groupId || typeof groupId !== "string"`
only when it is a string and not `""`; `none` stands for a missing or
non-string value. -/
def validGroupId : Option String → Bool
  | none => false
  | some g => decide (g ≠ "")

/-- JavaScript `String.prototype.trim`, written over the character list so
that the kernel can evaluate it. -/
def jsTrim (s : String) : String :=
  String.mk (((s.data.dropWhile Char.isWhitespace).reverse.dropWhile
    Char.isWhitespace).reverse)

/-! ### registerChatHandlers (part_015 lines 87-622) -/

def joinGroupHandler (userId socketId : String) (groupId? : Option String)
    (s : Sys) : Sys × List Emission :=
  if validGroupId groupId? = false then
    (s, [(.sender, .error "Valid group ID is required" "VALIDATION_ERROR")])
  else
    let groupId := groupId?.getD ""
    if verifyGroupMembership userId groupId s.db = false then
      (s, [(.sender, .error "You are not a member of this group" "FORBIDDEN")])
    else
      let rn := roomName groupId
      let rooms1 := sadd (socketId, rn) s.rooms
      let rooms2 := sadd (socketId, "user:" ++ userId) rooms1
      let redis1 := RoomManager.addUserToRoom userId groupId socketId s.redis
      let s1 : Sys := { s with rooms := rooms2, redis := redis1 }
      let roomSize := allSocketsCount rn s1
      let wasAlreadyInRoom := RoomManager.isUserInRoom userId groupId s1.redis
      let joinEms : List Emission :=
        if wasAlreadyInRoom = false then
          match getUserGroupMembership userId groupId s1.db with
          | some membership =>
            [(.roomExceptSender rn,
              .user_joined_group userId membership.userName groupId roomSize)]
          | none => []
        else []
      (s1, joinEms ++ [(.sender, .joined_group_success groupId roomSize)])

def leaveGroupHandler (userId socketId : String) (groupId? : Option String)
    (s : Sys) : Sys × List Emission :=
  if validGroupId groupId? = false then
    (s, [(.sender, .error "Valid group ID is required" "VALIDATION_ERROR")])
  else
    let groupId := groupId?.getD ""
    let rn := roomName groupId
    let membership := getUserGroupMembership userId groupId s.db
    let rooms1 := srem (socketId, rn) s.rooms
    let redis1 := RoomManager.removeUserFromRoom userId groupId socketId s.redis
    let s1 : Sys := { s with rooms := rooms1, redis := redis1 }
    let roomSize := allSocketsCount rn s1
    let userStillInRoom := RoomManager.isUserInRoom userId groupId s1.redis
    let leaveEms : List Emission :=
      if userStillInRoom = false then
        match membership with
        | some m =>
          [(.roomExceptSender rn,
            .user_left_group userId m.userName groupId roomSize)]
        | none => []
      else []
    (s1, leaveEms ++ [(.sender, .left_group_success groupId roomSize)])

structure SendMessagePayload where
  groupId : Option String
  content : Option String
  type : Option MessageType
  replyToId : Option Nat
deriving DecidableEq

def sendMessageHandler (userId socketId : String) (data : SendMessagePayload)
    (s : Sys) : Sys × List Emission :=
  let contentBad : Bool :=
    match data.content with
    | none => true
    | some c => decide (jsTrim c = "")
  if contentBad then
    (s, [(.sender, .error "Message content cannot be empty" "VALIDATION_ERROR")])
  else if validGroupId data.groupId = false then
    (s, [(.sender, .error "Valid group ID is required" "VALIDATION_ERROR")])
  else
    let groupId := data.groupId.getD ""
    if verifyGroupMembership userId groupId s.db = false then
      (s, [(.sender, .error "You are not a member of this group" "FORBIDDEN")])
    else
      let rn := roomName groupId
      if decide ((socketId, rn) ∉ s.rooms) then
        (s, [(.sender,
          .error "You must join the group room before sending messages" "FORBIDDEN")])
      else
        match createMessage
            { content := jsTrim (data.content.getD "")
              type := data.type.getD .TEXT
              senderId := userId
              groupId := groupId
              replyToId := data.replyToId } s.db with
        | .error _ =>
          (s, [(.sender, .error "Failed to send message" "INTERNAL_ERROR")])
        | .ok (message, db1) =>
          let md : MessageData :=
            { id := message.id, content := message.content, type := message.type
              senderId := message.senderId, groupId := message.groupId
              replyToId := message.replyToId }
          let typingEms : List Emission :=
            if s.redis.ready then
              [(.roomExceptSender rn, .user_stopped_typing userId groupId)]
            else []
          let redis1 :=
            if s.redis.ready then
              { s.redis with typing := srem (groupId, userId) s.redis.typing }
            else s.redis
          ({ s with db := db1, redis := redis1 },
           (.room rn, .message_received md) :: typingEms)

structure TypingPayload where
  groupId : Option String
deriving DecidableEq

def typingStartHandler (userId socketId : String) (data : TypingPayload)
    (s : Sys) : Sys × List Emission :=
  if validGroupId data.groupId = false then (s, [])
  else
    let groupId := data.groupId.getD ""
    if verifyGroupMembership userId groupId s.db = false then (s, [])
    else
      let rn := roomName groupId
      if decide ((socketId, rn) ∉ s.rooms) then (s, [])
      else
        match getUserGroupMembership userId groupId s.db with
        | none => (s, [])
        | some membership =>
          let redis1 :=
            if s.redis.ready then
              { s.redis with typing := sadd (groupId, userId) s.redis.typing }
            else s.redis
          ({ s with redis := redis1 },
           [(.roomExceptSender rn,
             .user_typing userId membership.userName groupId)])

def typingStopHandler (userId socketId : String) (data : TypingPayload)
    (s : Sys) : Sys × List Emission :=
  if validGroupId data.groupId = false then (s, [])
  else
    let groupId := data.groupId.getD ""
    if verifyGroupMembership userId groupId s.db = false then (s, [])
    else
      let rn := roomName groupId
      if decide ((socketId, rn) ∉ s.rooms) then (s, [])
      else
        let redis1 :=
          if s.redis.ready then
            { s.redis with typing := srem (groupId, userId) s.redis.typing }
          else s.redis
        ({ s with redis := redis1 },
         [(.roomExceptSender rn, .user_stopped_typing userId groupId)])

structure GetMessagesPayload where
  groupId : Option String
  limit : Option Nat
  cursor : Option Nat
deriving DecidableEq

def getGroupMessagesHandler (userId _socketId : String)
    (data : GetMessagesPayload) (s : Sys) : Sys × List Emission :=
  if validGroupId data.groupId = false then
    (s, [(.sender, .error "Valid group ID is required" "VALIDATION_ERROR")])
  else
    let groupId := data.groupId.getD ""
    if verifyGroupMembership userId groupId s.db = false then
      (s, [(.sender, .error "You are not a member of this group" "FORBIDDEN")])
    else
      match getGroupMessages groupId userId (data.limit.getD 50) data.cursor s.db with
      | .error _ =>
        (s, [(.sender, .error "Failed to get group messages" "INTERNAL_ERROR")])
      | .ok result => (s, [(.sender, .group_messages result)])

def getRoomInfoHandler (userId _socketId : String) (data : TypingPayload)
    (s : Sys) : Sys × List Emission :=
  if validGroupId data.groupId = false then
    (s, [(.sender, .error "Valid group ID is required" "VALIDATION_ERROR")])
  else
    let groupId := data.groupId.getD ""
    if verifyGroupMembership userId groupId s.db = false then
      (s, [(.sender, .error "You are not a member of this group" "FORBIDDEN")])
    else
      let rn := roomName groupId
      (s, [(.sender,
        .room_members_update groupId (RoomManager.getRoomUsers groupId s.redis)
          (allSocketsCount rn s))])

/-- Per-room part of the disconnect sweep (part_015 lines 584-613). -/
def disconnectRoomCleanup (userId socketId : String) (groupId : String)
    (s : Sys) : Sys × List Emission :=
  let redis1 := RoomManager.removeUserFromRoom userId groupId socketId s.redis
  let s1 : Sys := { s with redis := redis1 }
  let userStillInRoom := RoomManager.isUserInRoom userId groupId s1.redis
  if userStillInRoom = false then
    let rn := roomName groupId
    let roomSize := allSocketsCount rn s1
    match getUserGroupMembership userId groupId s1.db with
    | some m =>
      (s1, [(.roomExceptSender rn,
        .user_left_group userId m.userName groupId roomSize)])
    | none => (s1, [])
  else (s1, [])

/-- Disconnect handler (part_015 lines 551-621).  Socket.io has already made
the disconnecting socket leave its adapter rooms, so its room entries are
dropped first; then typing keys are swept and each room the user was in is
cleaned up. -/
def disconnectHandler (userId socketId : String) (s : Sys) :
    Sys × List Emission :=
  let s0 : Sys :=
    { s with rooms := s.rooms.filter (fun p => !decide (p.1 = socketId)) }
  let userRooms := RoomManager.getUserRooms userId s0.redis
  let typingKeys := s0.redis.typing.filter (fun p => decide (p.2 = userId))
  let typingEms : List Emission :=
    if s0.redis.ready then
      typingKeys.map
        (fun p => (.roomExceptSender (roomName p.1), .user_stopped_typing userId p.1))
    else []
  let redis1 :=
    if s0.redis.ready then
      { s0.redis with
        typing := s0.redis.typing.filter (fun p => !decide (p.2 = userId)) }
    else s0.redis
  let s1 : Sys := { s0 with redis := redis1 }
  userRooms.foldl
    (fun acc g =>
      let step := disconnectRoomCleanup userId socketId g acc.1
      (step.1, acc.2 ++ step.2))
    (s1, typingEms)

/-! ### Token verification and the two authentication gates -/

structure JwtPayload where
  id : String
  email : Option String
  emailVerified : Bool
  type : String
deriving DecidableEq

structure SocketData where
  userId : String
  email : Option String
  emailVerified : Bool
deriving DecidableEq

/-- Socket handshake middleware (part_002 lines 403-437).  `verify` stands
for `verifyToken` of utils/jwt.ts: it returns the decoded payload or the
`UnauthorizedError` message it throws on an unparseable or expired token. -/
def socketAuthenticate (verify : String → Except String JwtPayload)
    (handshakeToken : Option String) : Except String SocketData :=
  match handshakeToken with
  | none => .error "Authentication token required"
  | some token =>
    match verify token with
    | .error _ => .error "Invalid authentication token"
    | .ok decoded =>
      if decoded.type ≠ "access" then .error "Invalid token type"
      else .ok { userId := decoded.id, email := decoded.email
                 emailVerified := decoded.emailVerified }

/-- JavaScript `authHeader.split(" ")[1]`, over the character list (a missing
index yields `""`, which the `!token` guard treats like `undefined`). -/
def splitSpaceSecond (s : String) : String :=
  String.mk (((s.data.dropWhile (fun c => decide (c ≠ ' '))).drop 1).takeWhile
    (fun c => decide (c ≠ ' ')))

/-- REST `authMiddleware` (middleware/auth.ts lines 28-51).
`startsWith` is expressed as a prefix test on the character list. -/
def authMiddleware (verify : String → Except String JwtPayload)
    (authHeader : Option String) : Except String JwtPayload :=
  match authHeader with
  | none => .error "Authorization header is missing or malformed"
  | some h =>
    if ("Bearer ".data.isPrefixOf h.data) = false then
      .error "Authorization header is missing or malformed"
    else
      let token := splitSpaceSecond h
      if token = "" then .error "Token not found"
      else
        match verify token with
        | .error msg => .error msg
        | .ok decoded =>
          if decoded.type ≠ "access" then
            .error "Invalid token type. Access token required."
          else .ok decoded

/-! ### Helpers for stating the claims -/

def Event.isError : Event → Bool
  | .error _ _ => true
  | _ => false

def Event.isErrorWithCode (code : String) : Event → Bool
  | .error _ c => decide (c = code)
  | _ => false

def Event.isUserJoinedGroup : Event → Bool
  | .user_joined_group _ _ _ _ => true
  | _ => false

def Event.isUserLeftGroup : Event → Bool
  | .user_left_group _ _ _ _ => true
  | _ => false

def Event.isMessageReceived : Event → Bool
  | .message_received _ => true
  | _ => false

def Event.isGroupMessages : Event → Bool
  | .group_messages _ => true
  | _ => false

/-- An error event emitted to the session that triggered the handler. -/
def emitsErrorToSender (ems : List Emission) : Bool :=
  ems.any (fun em => decide (em.1 = .sender) && em.2.isError)

/-- The events that socket `recvSock` receives from the emission list, given
the sending socket and the adapter rooms in force when the emissions are
interpreted. -/
def deliveredEvents (sendSock : String) (rooms : List (String × String))
    (recvSock : String) (ems : List Emission) : List Event :=
  (ems.filter (fun em =>
    match em.1 with
    | .sender => decide (recvSock = sendSock)
    | .roomExceptSender r =>
      decide ((recvSock, r) ∈ rooms) && decide (recvSock ≠ sendSock)
    | .room r => decide ((recvSock, r) ∈ rooms))).map (·.2)

instance {e a : Type} [DecidableEq e] [DecidableEq a] : DecidableEq (Except e a) :=
  fun x y =>
  match x, y with
  | .error u, .error v =>
    if h : u = v then isTrue (congrArg Except.error h)
    else isFalse (fun hc => h (Except.error.inj hc))
  | .ok u, .ok v =>
    if h : u = v then isTrue (congrArg Except.ok h)
    else isFalse (fun hc => h (Except.ok.inj hc))
  | .error _, .ok _ => isFalse (fun hc => Except.noConfusion hc)
  | .ok _, .error _ => isFalse (fun hc => Except.noConfusion hc)

/-! ### Concrete fixtures used by witnesses and counterexamples -/

/-- Two groups: alice owns g1, mallory owns g2; message 42 lives in g2. -/
def exDb : Db :=
  { groups := [⟨"g1", "alice"⟩, ⟨"g2", "mallory"⟩]
    groupMembers := [⟨"alice", "g1", .OWNER, "Alice"⟩, ⟨"mallory", "g2", .OWNER, "Mallory"⟩]
    messages := [⟨42, "hi", .TEXT, "mallory", "g2", none, 5⟩]
    nextId := 100
    now := 50 }

def exRedisReady : Redis :=
  { ready := true, roomUsers := [], userRooms := [], userSockets := [], typing := [] }

/-- Fresh state: redis up, nobody present anywhere. -/
def exSys : Sys := { redis := exRedisReady, db := exDb, rooms := [] }

/-- Alice's socket s1 has joined the adapter room of g1. -/
def exSysJoined : Sys := { redis := exRedisReady, db := exDb, rooms := [("s1", "group:g1")] }

/-- Alice is present in room g1 with two live sockets s1 and s2. -/
def exRedisTwoSockets : Redis :=
  { ready := true
    roomUsers := [("g1", "alice")]
    userRooms := [("alice", "g1")]
    userSockets := [⟨"alice", "g1", "s1"⟩, ⟨"alice", "g1", "s2"⟩]
    typing := [] }

def exSysTwoSockets : Sys :=
  { redis := exRedisTwoSockets, db := exDb, rooms := [("s1", "group:g1"), ("s2", "group:g1")] }

/-- Alice is present in room g1 with the single live socket s1. -/
def exRedisOneSocket : Redis :=
  { ready := true
    roomUsers := [("g1", "alice")]
    userRooms := [("alice", "g1")]
    userSockets := [⟨"alice", "g1", "s1"⟩]
    typing := [] }

def exSysOneSocket : Sys :=
  { redis := exRedisOneSocket, db := exDb, rooms := [("s1", "group:g1")] }

/-- Seven messages m1..m7 in g1 with increasing timestamps. -/
def dbSeven : Db :=
  { groups := [⟨"g1", "alice"⟩]
    groupMembers := [⟨"alice", "g1", .OWNER, "Alice"⟩]
    messages := (List.range 7).map (fun i => ⟨i + 1, "m", .TEXT, "alice", "g1", none, i + 1⟩)
    nextId := 8
    now := 9 }

/-- carol created g1 but holds no GroupMember row. -/
def dbCreatorOnly : Db :=
  { groups := [⟨"g1", "carol"⟩], groupMembers := [], messages := [], nextId := 1, now := 0 }

def sysCreatorOnly : Sys := { redis := exRedisReady, db := dbCreatorOnly, rooms := [] }

/-- gx has an OWNER, two ADMINs and a plain MEMBER. -/
def dbRoles : Db :=
  { groups := [⟨"gx", "olivia"⟩]
    groupMembers := [⟨"olivia", "gx", .OWNER, "Olivia"⟩, ⟨"aaron", "gx", .ADMIN, "Aaron"⟩,
      ⟨"abby", "gx", .ADMIN, "Abby"⟩, ⟨"mary", "gx", .MEMBER, "Mary"⟩]
    messages := []
    nextId := 1
    now := 0 }

/-- A token-verification environment with one access and one refresh token. -/
def exVerify : String → Except String JwtPayload
  | "acc" => .ok ⟨"u1", some "u1@x", true, "access"⟩
  | "ref" => .ok ⟨"u1", some "u1@x", true, "refresh"⟩
  | "expd" => .error "Token has expired"
  | _ => .error "Invalid token"

/-! ### Helper lemmas on the Redis set primitives -/

theorem mem_sadd_self {α : Type} [DecidableEq α] (x : α) (l : List α) :
    x ∈ sadd x l := by
  unfold sadd
  split
  · assumption
  · simp

theorem mem_sadd_iff {α : Type} [DecidableEq α] (x y : α) (l : List α) :
    y ∈ sadd x l ↔ y ∈ l ∨ y = x := by
  unfold sadd
  split
  · rename_i h
    constructor
    · exact fun hy => Or.inl hy
    · rintro (hy | rfl)
      · exact hy
      · exact h
  · simp

theorem mem_srem_iff {α : Type} [DecidableEq α] (x y : α) (l : List α) :
    y ∈ srem x l ↔ y ∈ l ∧ y ≠ x := by
  unfold srem
  simp

theorem not_mem_srem_self {α : Type} [DecidableEq α] (x : α) (l : List α) :
    x ∉ srem x l := by
  simp [mem_srem_iff]

theorem isUserInRoom_addUserToRoom_self (u g sid : String) (r : Redis)
    (h : r.ready = true) :
    RoomManager.isUserInRoom u g (RoomManager.addUserToRoom u g sid r) = true := by
  unfold RoomManager.addUserToRoom RoomManager.isUserInRoom
  simp [h, mem_sadd_self]

/-! ### C1 -/

/-- C1: the claim says `user_joined_group` is broadcast on every first join
(when `user:{U}:sockets:{G}` was empty immediately before).  The handler
instead consults `isUserInRoom` only after `addUserToRoom` has already
inserted the user, so whenever Redis is ready the check is always true and
`user_joined_group` is never broadcast, first join or not. -/
theorem C1_join_group_never_broadcasts_user_joined (s : Sys)
    (userId socketId : String) (groupId? : Option String)
    (hready : s.redis.ready = true) :
    ((joinGroupHandler userId socketId groupId? s).2.filter
      (fun em => em.2.isUserJoinedGroup)) = [] := by
  unfold joinGroupHandler
  by_cases hv : validGroupId groupId? = false
  · simp [hv, Event.isUserJoinedGroup]
  · by_cases hm : verifyGroupMembership userId (groupId?.getD "") s.db = false
    · simp [hv, hm, Event.isUserJoinedGroup]
    · simp [hv, hm, isUserInRoom_addUserToRoom_self _ _ _ _ hready,
        Event.isUserJoinedGroup]

/-- Witness for C1: alice's very first join of g1 — her per-room socket set
is empty beforehand and she passes the membership check — still broadcasts
no `user_joined_group`. -/
theorem C1_join_group_never_broadcasts_user_joined_witness :
    socketsOf exSys.redis "alice" "g1" = [] ∧
    verifyGroupMembership "alice" "g1" exSys.db = true ∧
    ((joinGroupHandler "alice" "s1" (some "g1") exSys).2.filter
      (fun em => em.2.isUserJoinedGroup)) = [] :=
  ⟨by decide, by decide,
    C1_join_group_never_broadcasts_user_joined exSys "alice" "s1" (some "g1") rfl⟩

/-! ### C2 -/

theorem removeUserFromRoom_spec (u g sid : String) (r : Redis) (h : r.ready = true) :
    (RoomManager.removeUserFromRoom u g sid r).ready = true ∧
    (RoomManager.removeUserFromRoom u g sid r).userSockets =
      srem (SockEntry.mk u g sid) r.userSockets ∧
    (socketsOf (RoomManager.removeUserFromRoom u g sid r) u g = [] →
      (RoomManager.removeUserFromRoom u g sid r).roomUsers = srem (g, u) r.roomUsers ∧
      (RoomManager.removeUserFromRoom u g sid r).userRooms = srem (u, g) r.userRooms) ∧
    (socketsOf (RoomManager.removeUserFromRoom u g sid r) u g ≠ [] →
      (RoomManager.removeUserFromRoom u g sid r).roomUsers = r.roomUsers ∧
      (RoomManager.removeUserFromRoom u g sid r).userRooms = r.userRooms) := by
  unfold RoomManager.removeUserFromRoom
  split
  · rename_i hr
    exact absurd hr (by simp [h])
  · dsimp only
    split
    · rename_i hrem
      refine ⟨h, rfl, fun _ => ⟨rfl, rfl⟩, fun hne => absurd ?_ hne⟩
      simp only [socketsOf]
      rw [List.length_eq_zero.mp hrem]
      rfl
    · rename_i hrem
      refine ⟨h, rfl, fun he => absurd ?_ hrem, fun _ => ⟨rfl, rfl⟩⟩
      simp only [socketsOf] at he
      rw [List.map_eq_nil_iff.mp he]
      rfl

theorem leaveGroup_lastSocket_spec (s : Sys) (userId socketId groupId : String) (m : GroupMember)
    (hready : s.redis.ready = true)
    (hmem : getUserGroupMembership userId groupId s.db = some m)
    (hg : groupId ≠ "")
    (hinv : (∃ e ∈ s.redis.userSockets,
        e.userId = userId ∧ e.groupId = groupId ∧ e.socketId ≠ socketId) →
      (groupId, userId) ∈ s.redis.roomUsers) :
    ∀ s1 ems, leaveGroupHandler userId socketId (some groupId) s = (s1, ems) →
      (SockEntry.mk userId groupId socketId ∉ s1.redis.userSockets) ∧
      (socketsOf s1.redis userId groupId = [] →
        (groupId, userId) ∉ s1.redis.roomUsers ∧
        (userId, groupId) ∉ s1.redis.userRooms) ∧
      ((ems.filter (fun em => em.2.isUserLeftGroup)).length =
        if socketsOf s1.redis userId groupId = [] then 1 else 0) ∧
      (∀ em ∈ ems, em.2.isUserLeftGroup = true →
        em.1 = Target.roomExceptSender (roomName groupId)) := by
  intro s1 ems heq
  have hv : ¬ (validGroupId (some groupId) = false) := by simp [validGroupId, hg]
  unfold leaveGroupHandler at heq
  rw [if_neg hv] at heq
  dsimp only [Option.getD] at heq
  obtain ⟨hrd, hus, hempty, hnonempty⟩ :=
    removeUserFromRoom_spec userId groupId socketId s.redis hready
  by_cases hemp : socketsOf
      (RoomManager.removeUserFromRoom userId groupId socketId s.redis) userId groupId = []
  · obtain ⟨hr, hur⟩ := hempty hemp
    have hstill : RoomManager.isUserInRoom userId groupId
        (RoomManager.removeUserFromRoom userId groupId socketId s.redis) = false := by
      unfold RoomManager.isUserInRoom
      rw [if_neg (by simp [hrd])]
      simp [hr, not_mem_srem_self]
    rw [hstill, hmem] at heq
    rw [if_pos rfl] at heq
    injection heq with h1 h2
    subst h1
    subst h2
    refine ⟨?_, fun _ => ⟨?_, ?_⟩, ?_, ?_⟩
    · show SockEntry.mk userId groupId socketId ∉
        (RoomManager.removeUserFromRoom userId groupId socketId s.redis).userSockets
      rw [hus]
      exact not_mem_srem_self _ _
    · show (groupId, userId) ∉
        (RoomManager.removeUserFromRoom userId groupId socketId s.redis).roomUsers
      rw [hr]
      exact not_mem_srem_self _ _
    · show (userId, groupId) ∉
        (RoomManager.removeUserFromRoom userId groupId socketId s.redis).userRooms
      rw [hur]
      exact not_mem_srem_self _ _
    · simp [hemp, Event.isUserLeftGroup]
    · intro em hin hleft
      simp only [List.cons_append, List.nil_append, List.mem_cons,
        List.not_mem_nil, or_false] at hin
      rcases hin with h | h
      · rw [h]
      · rw [h] at hleft
        simp [Event.isUserLeftGroup] at hleft
  · have hfilne : ((RoomManager.removeUserFromRoom userId groupId socketId
        s.redis).userSockets.filter
        (fun e => decide (e.userId = userId ∧ e.groupId = groupId))) ≠ [] := by
      intro habs
      apply hemp
      simp only [socketsOf, habs, List.map_nil]
    obtain ⟨e, he⟩ := List.exists_mem_of_ne_nil _ hfilne
    have he1 := (List.mem_filter.mp he).1
    have he2 := of_decide_eq_true (List.mem_filter.mp he).2
    rw [hus] at he1
    have he3 := (mem_srem_iff _ _ _).mp he1
    have hroom : (groupId, userId) ∈ s.redis.roomUsers := by
      apply hinv
      refine ⟨e, he3.1, he2.1, he2.2, ?_⟩
      intro hsid
      apply he3.2
      cases e
      simp_all
    have hstill : RoomManager.isUserInRoom userId groupId
        (RoomManager.removeUserFromRoom userId groupId socketId s.redis) = true := by
      unfold RoomManager.isUserInRoom
      rw [if_neg (by simp [hrd])]
      rw [(hnonempty hemp).1]
      simp [hroom]
    rw [hstill] at heq
    rw [if_neg (by simp)] at heq
    injection heq with h1 h2
    subst h1
    subst h2
    refine ⟨?_, fun habs => absurd habs hemp, ?_, ?_⟩
    · show SockEntry.mk userId groupId socketId ∉
        (RoomManager.removeUserFromRoom userId groupId socketId s.redis).userSockets
      rw [hus]
      exact not_mem_srem_self _ _
    · simp [hemp, Event.isUserLeftGroup]
    · intro em hin hleft
      simp only [List.nil_append, List.mem_singleton] at hin
      rw [hin] at hleft
      simp [Event.isUserLeftGroup] at hleft

/-- C2: on `leave_group` (and the identical per-room step of the disconnect
sweep) the session's socket is removed from `user:{U}:sockets:{G}`; exactly
when that set is then empty the user is also removed from `room:{G}:users`
and `user:{U}:rooms` and one `user_left_group` is broadcast, excluding the
leaving session; concretely, disconnecting the first of alice's two sessions
broadcasts nothing and disconnecting the second broadcasts exactly one. -/
theorem C2_leave_and_disconnect_last_session_edge (s : Sys)
    (userId socketId groupId : String) (m : GroupMember)
    (hready : s.redis.ready = true)
    (hmem : getUserGroupMembership userId groupId s.db = some m)
    (hg : groupId ≠ "")
    (hinv : (∃ e ∈ s.redis.userSockets,
        e.userId = userId ∧ e.groupId = groupId ∧ e.socketId ≠ socketId) →
      (groupId, userId) ∈ s.redis.roomUsers) :
    (∀ s1 ems, leaveGroupHandler userId socketId (some groupId) s = (s1, ems) →
      (SockEntry.mk userId groupId socketId ∉ s1.redis.userSockets) ∧
      (socketsOf s1.redis userId groupId = [] →
        (groupId, userId) ∉ s1.redis.roomUsers ∧
        (userId, groupId) ∉ s1.redis.userRooms) ∧
      ((ems.filter (fun em => em.2.isUserLeftGroup)).length =
        if socketsOf s1.redis userId groupId = [] then 1 else 0) ∧
      (∀ em ∈ ems, em.2.isUserLeftGroup = true →
        em.1 = Target.roomExceptSender (roomName groupId))) ∧
    socketsOf (disconnectHandler "alice" "s1" exSysTwoSockets).1.redis "alice" "g1" = ["s2"] ∧
    ((disconnectHandler "alice" "s1" exSysTwoSockets).2.filter
      (fun em => em.2.isUserLeftGroup)).length = 0 ∧
    ((disconnectHandler "alice" "s2"
        (disconnectHandler "alice" "s1" exSysTwoSockets).1).2.filter
      (fun em => em.2.isUserLeftGroup)).length = 1 :=
  ⟨leaveGroup_lastSocket_spec s userId socketId groupId m hready hmem hg hinv,
   by decide, by decide, by decide⟩

/-- Witness for C2: alice leaves g1 from her only session s1; the socket set
empties, so her presence rows are gone and exactly one `user_left_group` is
broadcast to the room excluding s1. -/
theorem C2_leave_and_disconnect_last_session_edge_witness :
    SockEntry.mk "alice" "g1" "s1" ∉
      (leaveGroupHandler "alice" "s1" (some "g1") exSysOneSocket).1.redis.userSockets ∧
    (((leaveGroupHandler "alice" "s1" (some "g1") exSysOneSocket).2.filter
      (fun em => em.2.isUserLeftGroup)).length =
      if socketsOf (leaveGroupHandler "alice" "s1" (some "g1") exSysOneSocket).1.redis
          "alice" "g1" = [] then 1 else 0) :=
  ⟨(((C2_leave_and_disconnect_last_session_edge exSysOneSocket "alice" "s1" "g1"
      (GroupMember.mk "alice" "g1" .OWNER "Alice") rfl (by decide) (by decide)
      (by decide)).1) _ _ rfl).1,
   (((C2_leave_and_disconnect_last_session_edge exSysOneSocket "alice" "s1" "g1"
      (GroupMember.mk "alice" "g1" .OWNER "Alice") rfl (by decide) (by decide)
      (by decide)).1) _ _ rfl).2.2.1⟩

/-! ### C3 -/

/-- C3: `send_message` is a no-op with respect to fan-out iff it emitted an
error event to the sending session; a failed send changes no state and sends
only sender-targeted events, and a successful send delivers exactly one
`message_received` to every session joined to the room (the sender's own
included) and none to sessions outside it. -/
theorem C3_send_message_fanout_iff_no_error (userId socketId : String) (data : SendMessagePayload) (s : Sys) :
    (emitsErrorToSender (sendMessageHandler userId socketId data s).2 = true ↔
      (sendMessageHandler userId socketId data s).2.any
        (fun em => em.2.isMessageReceived) = false) ∧
    (emitsErrorToSender (sendMessageHandler userId socketId data s).2 = true →
      (sendMessageHandler userId socketId data s).1 = s ∧
      (sendMessageHandler userId socketId data s).2.all
        (fun em => decide (em.1 = Target.sender)) = true) ∧
    (emitsErrorToSender (sendMessageHandler userId socketId data s).2 = false →
      ∀ recv, ((deliveredEvents socketId s.rooms recv
          (sendMessageHandler userId socketId data s).2).filter
          Event.isMessageReceived).length =
        if (recv, roomName (data.groupId.getD "")) ∈ s.rooms then 1 else 0) := by
  unfold sendMessageHandler
  dsimp only
  split
  · refine ⟨by simp [emitsErrorToSender, Event.isError, Event.isMessageReceived],
      fun _ => ⟨rfl, by simp [Event.isError]⟩, fun hfalse => ?_⟩
    simp [emitsErrorToSender, Event.isError] at hfalse
  · split
    · refine ⟨by simp [emitsErrorToSender, Event.isError, Event.isMessageReceived],
        fun _ => ⟨rfl, by simp [Event.isError]⟩, fun hfalse => ?_⟩
      simp [emitsErrorToSender, Event.isError] at hfalse
    · split
      · refine ⟨by simp [emitsErrorToSender, Event.isError, Event.isMessageReceived],
          fun _ => ⟨rfl, by simp [Event.isError]⟩, fun hfalse => ?_⟩
        simp [emitsErrorToSender, Event.isError] at hfalse
      · split
        · refine ⟨by simp [emitsErrorToSender, Event.isError, Event.isMessageReceived],
            fun _ => ⟨rfl, by simp [Event.isError]⟩, fun hfalse => ?_⟩
          simp [emitsErrorToSender, Event.isError] at hfalse
        · split
          · refine ⟨by simp [emitsErrorToSender, Event.isError, Event.isMessageReceived],
              fun _ => ⟨rfl, by simp [Event.isError]⟩, fun hfalse => ?_⟩
            simp [emitsErrorToSender, Event.isError] at hfalse
          · rename_i message_db hok
            refine ⟨?_, ?_, ?_⟩
            · constructor
              · intro habs
                by_cases hready : s.redis.ready <;>
                  simp [emitsErrorToSender, Event.isError, hready] at habs
              · intro habs
                by_cases hready : s.redis.ready <;>
                  simp [Event.isMessageReceived, hready] at habs
            · intro habs
              by_cases hready : s.redis.ready <;>
                simp [emitsErrorToSender, Event.isError, hready] at habs
            · intro _ recv
              by_cases hready : s.redis.ready <;>
                by_cases hmem : (recv, roomName (data.groupId.getD "")) ∈ s.rooms <;>
                simp [deliveredEvents, hready, hmem, Event.isMessageReceived]

/-- Witness for C3: a successful send by alice in g1 delivers exactly one
`message_received` to her own joined session s1. -/
theorem C3_send_message_fanout_iff_no_error_witness :
    ((deliveredEvents "s1" exSysJoined.rooms "s1"
        (sendMessageHandler "alice" "s1"
          (SendMessagePayload.mk (some "g1") (some "hello") none none) exSysJoined).2).filter
        Event.isMessageReceived).length =
      if (("s1" : String), roomName ((some "g1" : Option String).getD "")) ∈
          exSysJoined.rooms then 1 else 0 :=
  (C3_send_message_fanout_iff_no_error "alice" "s1"
    (SendMessagePayload.mk (some "g1") (some "hello") none none) exSysJoined).2.2
    (by decide) "s1"

/-! ### C4 -/

theorem verifyGroupAccess_of_member (u g : String) (db : Db) (grp : Group)
    (hgrp : db.groups.find? (fun x => decide (x.id = g)) = some grp)
    (hmem : verifyGroupMembership u g db = true) :
    verifyGroupAccess u g db = .ok grp := by
  unfold verifyGroupAccess
  rw [hgrp]
  dsimp only
  have hpos : 0 < (db.groupMembers.filter
      (fun m => decide (m.userId = u ∧ m.groupId = g))).length := by
    unfold verifyGroupMembership getUserGroupMembership at hmem
    obtain ⟨mm, hm⟩ := Option.isSome_iff_exists.mp hmem
    have hp : (fun m => decide (m.userId = u ∧ m.groupId = g)) mm = true :=
      @List.find?_some _ (fun m => decide (m.userId = u ∧ m.groupId = g)) mm
        db.groupMembers hm
    have hmm : mm ∈ db.groupMembers.filter
        (fun m => decide (m.userId = u ∧ m.groupId = g)) :=
      List.mem_filter.mpr ⟨List.mem_of_find?_eq_some hm, hp⟩
    exact List.length_pos.mpr (List.ne_nil_of_mem hmm)
  have hdec : decide (0 < (db.groupMembers.filter
      (fun m => decide (m.userId = u ∧ m.groupId = g))).length) = true :=
    decide_eq_true hpos
  rw [hdec]
  simp

/-- C4 (amended): a `send_message` whose `replyToId` names a missing parent
or a parent from a different group is rejected by `createMessage`
(`BadRequestError`), which the socket handler's catch block surfaces as a
single `error{code:"INTERNAL_ERROR"}` to the sender — not VALIDATION_ERROR —
and no message is persisted. -/
theorem C4_reply_foreign_emits_internal_error (userId socketId : String) (s : Sys) (g c : String) (rid : Nat)
    (grp : Group)
    (hc : jsTrim c ≠ "")
    (hg : g ≠ "")
    (hgrp : s.db.groups.find? (fun x => decide (x.id = g)) = some grp)
    (hmem : verifyGroupMembership userId g s.db = true)
    (hroom : (socketId, roomName g) ∈ s.rooms)
    (hbad : ∀ pm, s.db.messages.find? (fun m => decide (m.id = rid)) = some pm →
      pm.groupId ≠ g) :
    sendMessageHandler userId socketId
      (SendMessagePayload.mk (some g) (some c) none (some rid)) s =
      (s, [(Target.sender, Event.error "Failed to send message" "INTERNAL_ERROR")]) := by
  unfold sendMessageHandler
  dsimp only [Option.getD]
  rw [if_neg (by simp [hc])]
  rw [if_neg (by simp [validGroupId, hg])]
  rw [if_neg (by simp [hmem])]
  rw [if_neg (by simp [hroom])]
  have hcm : createMessage
      (CreateMessageData.mk (jsTrim c) MessageType.TEXT userId g (some rid)) s.db =
      .error .BadRequestError := by
    unfold createMessage
    rw [verifyGroupAccess_of_member userId g s.db grp hgrp hmem]
    dsimp only
    have hro : (match s.db.messages.find? (fun m => decide (m.id = rid)) with
        | none => false
        | some originalMessage => decide (originalMessage.groupId = g)) = false := by
      rcases hfind : s.db.messages.find? (fun m => decide (m.id = rid)) with _ | pm
      · rw [hfind]
      · rw [hfind]
        exact decide_eq_false (hbad pm hfind)
    rw [hro]
    rfl
  rw [hcm]

/-- Counterexample for C4: alice (member of g1, joined) replies from g1 to
message 42, which lives in g2.  The claim predicts an error event with code
VALIDATION_ERROR; the handler's catch block instead emits
`error{code:"INTERNAL_ERROR"}` (and persists nothing). -/
theorem C4_reply_foreign_error_code_counterexample :
    (sendMessageHandler "alice" "s1"
      (SendMessagePayload.mk (some "g1") (some "re:") none (some 42)) exSysJoined).2 =
      [(Target.sender, Event.error "Failed to send message" "INTERNAL_ERROR")] ∧
    ((sendMessageHandler "alice" "s1"
      (SendMessagePayload.mk (some "g1") (some "re:") none (some 42)) exSysJoined).2.any
      (fun em => em.2.isErrorWithCode "VALIDATION_ERROR")) = false ∧
    (sendMessageHandler "alice" "s1"
      (SendMessagePayload.mk (some "g1") (some "re:") none (some 42)) exSysJoined).1.db.messages =
      exSysJoined.db.messages ∧
    (exSysJoined.db.messages.find? (fun m => decide (m.id = 42))).map (·.groupId) =
      some "g2" :=
  ⟨by decide, by decide, by decide, by decide⟩

/-- Witness for C4 (amended): the concrete foreign reply yields exactly the
single INTERNAL_ERROR emission and leaves the state untouched. -/
theorem C4_reply_foreign_emits_internal_error_witness :
    sendMessageHandler "alice" "s1"
      (SendMessagePayload.mk (some "g1") (some "re:") none (some 42)) exSysJoined =
      (exSysJoined,
       [(Target.sender, Event.error "Failed to send message" "INTERNAL_ERROR")]) :=
  C4_reply_foreign_emits_internal_error "alice" "s1" exSysJoined "g1" "re:" 42
    (Group.mk "g1" "alice") (by decide) (by decide) (by decide) (by decide) (by decide)
    (by
      intro pm h
      have hv : exSysJoined.db.messages.find? (fun m => decide (m.id = 42)) =
          some (Message.mk 42 "hi" MessageType.TEXT "mallory" "g2" none 5) := by decide
      rw [hv] at h
      injection h with h3
      rw [← h3]
      decide)

/-! ### C5 -/

theorem jsTrim_replicate_a (n : Nat) :
    jsTrim (String.mk (List.replicate n 'a')) = String.mk (List.replicate n 'a') := by
  have h1 : (List.replicate n 'a').dropWhile Char.isWhitespace = List.replicate n 'a' := by
    cases n with
    | zero => rfl
    | succ k =>
      rw [List.replicate_succ, List.dropWhile_cons, if_neg (by decide)]
  unfold jsTrim
  dsimp only
  rw [h1, List.reverse_replicate, h1, List.reverse_replicate]

theorem replicate_a_string_ne_empty (n : Nat) (h : n ≠ 0) :
    String.mk (List.replicate n 'a') ≠ "" := by
  intro habs
  have hlen : (List.replicate n 'a').length = ("" : String).data.length :=
    congrArg (fun t => t.data.length) habs
  rw [List.length_replicate] at hlen
  exact h hlen

theorem createMessageSchemaContentOk_replicate_a (n : Nat) :
    createMessageSchemaContentOk (String.mk (List.replicate n 'a')) =
      (decide (1 ≤ n) && decide (n ≤ 5000)) := by
  unfold createMessageSchemaContentOk
  have hlen : (String.mk (List.replicate n 'a')).length = n := by
    show (List.replicate n 'a').length = n
    exact List.length_replicate n 'a'
  rw [hlen]

theorem sendMessageHandler_success (userId socketId : String) (s : Sys) (g c : String)
    (grp : Group)
    (hc : jsTrim c ≠ "")
    (hg : g ≠ "")
    (hgrp : s.db.groups.find? (fun x => decide (x.id = g)) = some grp)
    (hmem : verifyGroupMembership userId g s.db = true)
    (hroom : (socketId, roomName g) ∈ s.rooms) :
    sendMessageHandler userId socketId
      (SendMessagePayload.mk (some g) (some c) none none) s =
      (Sys.mk
        (if s.redis.ready then
          { s.redis with typing := srem (g, userId) s.redis.typing }
         else s.redis)
        { s.db with
          messages := Message.mk s.db.nextId (jsTrim c) .TEXT userId g none s.db.now ::
            s.db.messages
          nextId := s.db.nextId + 1 }
        s.rooms,
       (Target.room (roomName g), Event.message_received
          (MessageData.mk s.db.nextId (jsTrim c) .TEXT userId g none)) ::
        (if s.redis.ready then
          [(Target.roomExceptSender (roomName g), Event.user_stopped_typing userId g)]
         else [])) := by
  unfold sendMessageHandler
  dsimp only [Option.getD]
  rw [if_neg (by simp [hc])]
  rw [if_neg (by simp [validGroupId, hg])]
  rw [if_neg (by simp [hmem])]
  rw [if_neg (by simp [hroom])]
  have hcm : createMessage
      (CreateMessageData.mk (jsTrim c) MessageType.TEXT userId g none) s.db =
      .ok (Message.mk s.db.nextId (jsTrim c) MessageType.TEXT userId g none s.db.now,
        { s.db with
          messages := Message.mk s.db.nextId (jsTrim c) MessageType.TEXT userId g none
            s.db.now :: s.db.messages
          nextId := s.db.nextId + 1 }) := by
    unfold createMessage
    rw [verifyGroupAccess_of_member userId g s.db grp hgrp hmem]
    rfl
  rw [hcm]

/-- Counterexample for C5: a TEXT `send_message` whose content is 5001
characters long is NOT rejected: no error event is emitted, `message_received`
is broadcast and the message is persisted.  Only the REST-side zod schema
(`createMessageSchemaContentOk`) would reject it; the socket handler never
applies a length check. -/
theorem C5_socket_accepts_overlong_content_counterexample :
    ((sendMessageHandler "alice" "s1"
      (SendMessagePayload.mk (some "g1") (some (String.mk (List.replicate 5001 'a'))) none none)
      exSysJoined).2.any (fun em => em.2.isError)) = false ∧
    ((sendMessageHandler "alice" "s1"
      (SendMessagePayload.mk (some "g1") (some (String.mk (List.replicate 5001 'a'))) none none)
      exSysJoined).2.any (fun em => em.2.isMessageReceived)) = true ∧
    (sendMessageHandler "alice" "s1"
      (SendMessagePayload.mk (some "g1") (some (String.mk (List.replicate 5001 'a'))) none none)
      exSysJoined).1.db.messages.length = exSysJoined.db.messages.length + 1 ∧
    createMessageSchemaContentOk (String.mk (List.replicate 5001 'a')) = false := by
  have hc : jsTrim (String.mk (List.replicate 5001 'a')) ≠ "" := by
    rw [jsTrim_replicate_a]
    exact replicate_a_string_ne_empty 5001 (by decide)
  have hs := sendMessageHandler_success "alice" "s1" exSysJoined "g1"
    (String.mk (List.replicate 5001 'a')) (Group.mk "g1" "alice") hc (by decide)
    (by decide) (by decide) (by decide)
  rw [hs]
  refine ⟨?_, ?_, ?_, ?_⟩
  · simp [Event.isError]
  · simp [Event.isMessageReceived]
  · rfl
  · rw [createMessageSchemaContentOk_replicate_a]
    decide

/-- C5 (amended): the socket `send_message` rejects only content that is
missing or empty after trimming (VALIDATION_ERROR); any non-empty trimmed
content is accepted regardless of length — in particular length 5001 passes —
while the 1..5000 bound exists only in chat.model.ts's `createMessageSchema`,
which accepts exactly length 5000 and rejects 5001. -/
theorem C5_content_validation_no_socket_length_limit :
    (∀ (userId socketId : String) (s : Sys) (data : SendMessagePayload),
      (match data.content with
       | none => true
       | some c => decide (jsTrim c = "")) = true →
      sendMessageHandler userId socketId data s =
        (s, [(Target.sender,
          Event.error "Message content cannot be empty" "VALIDATION_ERROR")])) ∧
    (∀ (userId socketId : String) (s : Sys) (g c : String) (grp : Group),
      jsTrim c ≠ "" → g ≠ "" →
      s.db.groups.find? (fun x => decide (x.id = g)) = some grp →
      verifyGroupMembership userId g s.db = true →
      (socketId, roomName g) ∈ s.rooms →
      ((sendMessageHandler userId socketId
          (SendMessagePayload.mk (some g) (some c) none none) s).2.any
        (fun em => em.2.isError) = false ∧
       (sendMessageHandler userId socketId
          (SendMessagePayload.mk (some g) (some c) none none) s).2.any
        (fun em => em.2.isMessageReceived) = true ∧
       (sendMessageHandler userId socketId
          (SendMessagePayload.mk (some g) (some c) none none) s).1.db.messages =
         Message.mk s.db.nextId (jsTrim c) .TEXT userId g none s.db.now ::
           s.db.messages)) ∧
    createMessageSchemaContentOk (String.mk (List.replicate 5000 'a')) = true ∧
    createMessageSchemaContentOk (String.mk (List.replicate 5001 'a')) = false := by
  refine ⟨?_, ?_, ?_, ?_⟩
  · intro userId socketId s data hbad
    unfold sendMessageHandler
    rw [if_pos hbad]
  · intro userId socketId s g c grp hc hg hgrp hmem hroom
    rw [sendMessageHandler_success userId socketId s g c grp hc hg hgrp hmem hroom]
    refine ⟨?_, ?_, rfl⟩
    · by_cases hready : s.redis.ready <;> simp [hready, Event.isError]
    · simp [Event.isMessageReceived]
  · rw [createMessageSchemaContentOk_replicate_a]
    decide
  · rw [createMessageSchemaContentOk_replicate_a]
    decide

/-- Witness for C5 (amended): whitespace-only content is rejected with
VALIDATION_ERROR, and the plain content "hello" is broadcast. -/
theorem C5_content_validation_no_socket_length_limit_witness :
    sendMessageHandler "alice" "s1"
      (SendMessagePayload.mk (some "g1") (some "   ") none none) exSysJoined =
      (exSysJoined, [(Target.sender,
        Event.error "Message content cannot be empty" "VALIDATION_ERROR")]) ∧
    ((sendMessageHandler "alice" "s1"
        (SendMessagePayload.mk (some "g1") (some "hello") none none) exSysJoined).2.any
      (fun em => em.2.isMessageReceived) = true) :=
  ⟨C5_content_validation_no_socket_length_limit.1 "alice" "s1" exSysJoined
     (SendMessagePayload.mk (some "g1") (some "   ") none none) (by decide),
   (C5_content_validation_no_socket_length_limit.2.1 "alice" "s1" exSysJoined "g1"
     "hello" (Group.mk "g1" "alice") (by decide) (by decide) (by decide) (by decide)
     (by decide)).2.1⟩

/-! ### C6 -/

/-- C6: `getGroupMessages` selects the group's rows below the cursor, sorted
newest-first, takes N+1; `hasNextPage` holds exactly when more than N rows
match, N rows are kept (the extra oldest row dropped), the result is returned
oldest-first, `nextCursor` is the id of the oldest kept row when a next page
exists (and absent otherwise), and every returned row matches the query. -/
theorem C6_pagination (db : Db) (groupId userId : String) (limit : Nat)
    (cursor : Option Nat) (grp : Group)
    (hacc : verifyGroupAccess userId groupId db = .ok grp) :
    ∃ page, getGroupMessages groupId userId limit cursor db = .ok page ∧
      page.hasNextPage =
        decide (limit < (db.messages.filter (matchesQuery groupId cursor)).length) ∧
      page.messages.length =
        min limit (db.messages.filter (matchesQuery groupId cursor)).length ∧
      List.Sorted (fun a b : Message => a.createdAt ≤ b.createdAt) page.messages ∧
      page.nextCursor =
        (if page.hasNextPage = true then page.messages.head?.map (·.id) else none) ∧
      (∀ m ∈ page.messages, matchesQuery groupId cursor m = true) := by
  unfold getGroupMessages
  rw [hacc]
  dsimp only
  set L := db.messages.filter (matchesQuery groupId cursor) with hL
  set S := List.insertionSort byCreatedAtDesc L with hS
  set F := S.take (limit + 1) with hF
  have hSlen : S.length = L.length := (List.perm_insertionSort byCreatedAtDesc L).length_eq
  have hFlen : F.length = min (limit + 1) L.length := by
    rw [hF, List.length_take, hSlen]
  have hFsort : List.Pairwise byCreatedAtDesc F :=
    (List.sorted_insertionSort byCreatedAtDesc L).sublist (List.take_sublist _ _)
  refine ⟨_, rfl, ?_, ?_, ?_, ?_, ?_⟩
  · refine decide_eq_decide.mpr ?_
    rw [hFlen, Nat.lt_min]
    exact ⟨fun h => h.2, fun h => ⟨Nat.lt_succ_self _, h⟩⟩
  · rw [List.length_reverse]
    by_cases hlt : limit < L.length
    · have hd : decide (limit < F.length) = true :=
        decide_eq_true (by rw [hFlen, Nat.lt_min]; exact ⟨Nat.lt_succ_self _, hlt⟩)
      rw [hd, if_pos rfl, List.length_dropLast, hFlen,
        Nat.min_eq_left (Nat.succ_le_of_lt hlt), Nat.min_eq_left (Nat.le_of_lt hlt)]
      omega
    · have hd : decide (limit < F.length) = false :=
        decide_eq_false (by rw [hFlen, Nat.lt_min]; exact fun h => hlt h.2)
      have hle : L.length ≤ limit := Nat.le_of_not_lt hlt
      rw [hd, if_neg (by simp), hFlen,
        Nat.min_eq_right (Nat.le_trans hle (Nat.le_succ _)), Nat.min_eq_right hle]
  · refine List.pairwise_reverse.mpr ?_
    split
    · exact hFsort.sublist (List.dropLast_sublist F)
    · exact hFsort
  · cases hd : decide (limit < F.length) with
    | false => simp
    | true =>
      by_cases hK : (F.dropLast).isEmpty
      · rw [if_pos rfl]
        rw [List.isEmpty_iff.mp hK]
        simp
      · rw [if_pos rfl]
        simp only [hK, Bool.not_false, Bool.and_true, if_pos rfl, List.head?_reverse]
  · intro m hm
    rw [List.mem_reverse] at hm
    have hmF : m ∈ F := by
      revert hm
      split
      · exact fun hm => (List.dropLast_sublist F).subset hm
      · exact fun hm => hm
    have hmS : m ∈ S := (List.take_sublist _ _).subset hmF
    have hmL : m ∈ L := (List.perm_insertionSort byCreatedAtDesc L).subset hmS
    exact (List.mem_filter.mp hmL).2

/-- Witness for C6: the seven-message fixture paginated with limit 3 yields
messages 5,6,7 oldest-first with a next page and cursor 5. -/
theorem C6_pagination_witness :
    (getGroupMessages "g1" "alice" 3 none dbSeven).isOk = true ∧
    getGroupMessages "g1" "alice" 3 none dbSeven = .ok (MessagesPage.mk
      [Message.mk 5 "m" .TEXT "alice" "g1" none 5,
       Message.mk 6 "m" .TEXT "alice" "g1" none 6,
       Message.mk 7 "m" .TEXT "alice" "g1" none 7] true (some 5)) := by
  constructor
  · obtain ⟨page, h1, _⟩ :=
      C6_pagination dbSeven "g1" "alice" 3 none (Group.mk "g1" "alice") (by decide)
    rw [h1]
    rfl
  · decide

/-! ### C7 -/

/-- Counterexample for C7: carol created g1 but holds no GroupMember row.
The claim says the history read authorizes members or the creator; the socket
`get_group_messages` handler authorizes via `verifyGroupMembership` alone and
rejects carol with FORBIDDEN, emitting no `group_messages` — even though the
service-level `verifyGroupAccess` (REST path) admits her. -/
theorem C7_creator_without_membership_rejected_counterexample :
    dbCreatorOnly.groups = [Group.mk "g1" "carol"] ∧
    getUserGroupMembership "carol" "g1" dbCreatorOnly = none ∧
    (getGroupMessagesHandler "carol" "s1" (GetMessagesPayload.mk (some "g1") none none)
      sysCreatorOnly).2 =
      [(Target.sender, Event.error "You are not a member of this group" "FORBIDDEN")] ∧
    ((getGroupMessagesHandler "carol" "s1" (GetMessagesPayload.mk (some "g1") none none)
      sysCreatorOnly).2.any (fun em => em.2.isGroupMessages)) = false ∧
    (∃ gr, verifyGroupAccess "carol" "g1" dbCreatorOnly = .ok gr) :=
  ⟨by decide, by decide, by decide, by decide, ⟨Group.mk "g1" "carol", by decide⟩⟩

/-- C7 (amended): the socket `get_group_messages` authorizes exactly
GroupMember holders — a non-member (creator or not) gets FORBIDDEN and a
member gets a `group_messages` page — while the service-level
`verifyGroupAccess` used by the REST history route authorizes exactly
member-or-creator. -/
theorem C7_history_read_authorization :
    (∀ (userId socketId : String) (s : Sys) (g : String)
       (lim cur : Option Nat), g ≠ "" →
      verifyGroupMembership userId g s.db = false →
      getGroupMessagesHandler userId socketId (GetMessagesPayload.mk (some g) lim cur) s =
        (s, [(Target.sender,
          Event.error "You are not a member of this group" "FORBIDDEN")])) ∧
    (∀ (userId socketId : String) (s : Sys) (g : String) (lim cur : Option Nat)
       (grp : Group), g ≠ "" →
      s.db.groups.find? (fun x => decide (x.id = g)) = some grp →
      verifyGroupMembership userId g s.db = true →
      ∃ page, getGroupMessagesHandler userId socketId
          (GetMessagesPayload.mk (some g) lim cur) s =
        (s, [(Target.sender, Event.group_messages page)])) ∧
    (∀ (db : Db) (u g : String) (grp : Group),
      db.groups.find? (fun x => decide (x.id = g)) = some grp →
      ((∃ gr, verifyGroupAccess u g db = .ok gr) ↔
        (grp.createdBy = u ∨ verifyGroupMembership u g db = true))) := by
  refine ⟨?_, ?_, ?_⟩
  · intro userId socketId s g lim cur hg hm
    unfold getGroupMessagesHandler
    dsimp only [Option.getD]
    rw [if_neg (by simp [validGroupId, hg])]
    rw [if_pos hm]
  · intro userId socketId s g lim cur grp hg hgrp hm
    unfold getGroupMessagesHandler
    dsimp only [Option.getD]
    rw [if_neg (by simp [validGroupId, hg])]
    rw [if_neg (by simp [hm])]
    have hacc := verifyGroupAccess_of_member userId g s.db grp hgrp hm
    unfold getGroupMessages
    rw [hacc]
    exact ⟨_, rfl⟩
  · intro db u g grp hgrp
    constructor
    · rintro ⟨gr, hok⟩
      by_cases hcr : grp.createdBy = u
      · exact Or.inl hcr
      · right
        by_cases hmm : 0 < (db.groupMembers.filter
            (fun m => decide (m.userId = u ∧ m.groupId = g))).length
        · unfold verifyGroupMembership getUserGroupMembership
          rw [List.find?_isSome]
          obtain ⟨x, hx⟩ := List.exists_mem_of_ne_nil _
            (List.ne_nil_of_length_pos hmm)
          exact ⟨x, (List.mem_filter.mp hx).1, (List.mem_filter.mp hx).2⟩
        · exfalso
          unfold verifyGroupAccess at hok
          rw [hgrp] at hok
          dsimp only at hok
          have hb : (!decide (grp.createdBy = u) &&
              !decide (0 < (db.groupMembers.filter
                (fun m => decide (m.userId = u ∧ m.groupId = g))).length)) = true := by
            rw [decide_eq_false hcr, decide_eq_false hmm]
            rfl
          rw [if_pos hb] at hok
          exact Except.noConfusion hok
    · intro h
      rcases h with hcr | hm
      · refine ⟨grp, ?_⟩
        unfold verifyGroupAccess
        rw [hgrp]
        dsimp only
        rw [if_neg (by simp [hcr])]
      · exact ⟨grp, verifyGroupAccess_of_member u g db grp hgrp hm⟩

/-- Witness for C7 (amended): bob (no membership) is rejected with FORBIDDEN
and alice (member) receives the empty page, on the two-group fixture. -/
theorem C7_history_read_authorization_witness :
    getGroupMessagesHandler "bob" "s9" (GetMessagesPayload.mk (some "g1") none none)
      exSys = (exSys, [(Target.sender,
        Event.error "You are not a member of this group" "FORBIDDEN")]) ∧
    getGroupMessagesHandler "alice" "s1" (GetMessagesPayload.mk (some "g1") none none)
      exSys = (exSys, [(Target.sender,
        Event.group_messages (MessagesPage.mk [] false none))]) :=
  ⟨C7_history_read_authorization.1 "bob" "s9" exSys "g1" none none (by decide) (by decide),
   by decide⟩

/-! ### C8 -/

/-- Counterexample for C8: in gx (OWNER olivia, ADMINs aaron and abby,
MEMBER mary) the service rejects mary's self-removal with ForbiddenError
(the claim says a MEMBER may remove themself) and lets ADMIN aaron remove
ADMIN abby (the claim says only the OWNER may remove an ADMIN).  Removing
the OWNER still fails. -/
theorem C8_member_self_removal_and_admin_removes_admin_counterexample :
    getUserGroupMembership "mary" "gx" dbRoles =
      some (GroupMember.mk "mary" "gx" .MEMBER "Mary") ∧
    removeUserFromGroup "gx" "mary" "mary" dbRoles = .error .ForbiddenError ∧
    getUserGroupMembership "aaron" "gx" dbRoles =
      some (GroupMember.mk "aaron" "gx" .ADMIN "Aaron") ∧
    getUserGroupMembership "abby" "gx" dbRoles =
      some (GroupMember.mk "abby" "gx" .ADMIN "Abby") ∧
    (removeUserFromGroup "gx" "abby" "aaron" dbRoles).isOk = true ∧
    removeUserFromGroup "gx" "olivia" "aaron" dbRoles = .error .ForbiddenError :=
  ⟨by decide, by decide, by decide, by decide, by decide, by decide⟩

/-- C8 (amended): `removeUserFromGroup` succeeds exactly when the remover
holds an ADMIN or OWNER membership and the target holds a non-OWNER
membership; so a plain MEMBER can remove nobody (not even themself), an
ADMIN can remove another ADMIN, and the OWNER can never be removed.  On
success the target's membership row is gone. -/
theorem C8_remove_member_permission_matrix :
    (∀ (db : Db) (groupId userId removedBy : String),
      (removeUserFromGroup groupId userId removedBy db).isOk = true ↔
        ((∃ rm, getUserGroupMembership removedBy groupId db = some rm ∧
           (rm.role = .ADMIN ∨ rm.role = .OWNER)) ∧
         (∃ um, getUserGroupMembership userId groupId db = some um ∧
           um.role ≠ .OWNER))) ∧
    (∀ (db : Db) (groupId userId removedBy : String) (db2 : Db),
      removeUserFromGroup groupId userId removedBy db = .ok db2 →
      getUserGroupMembership userId groupId db2 = none) := by
  constructor
  · intro db groupId userId removedBy
    unfold removeUserFromGroup
    rcases hr : getUserGroupMembership removedBy groupId db with _ | rm
    · simp [Except.isOk, Except.toBool]
    · rcases ht : getUserGroupMembership userId groupId db with _ | um
      · rcases hrole : rm.role with _ | _ | _ <;>
          simp [Except.isOk, Except.toBool, hrole, ht]
      · rcases hrole : rm.role with _ | _ | _ <;>
          rcases htrole : um.role with _ | _ | _ <;>
          simp [Except.isOk, Except.toBool, hrole, htrole, ht]
  · intro db groupId userId removedBy db2 h
    unfold removeUserFromGroup at h
    rcases hr : getUserGroupMembership removedBy groupId db with _ | rm <;> rw [hr] at h
    · exact Except.noConfusion h
    · dsimp only at h
      split at h
      · exact Except.noConfusion h
      · rcases ht : getUserGroupMembership userId groupId db with _ | um <;>
          rw [ht] at h
        · exact Except.noConfusion h
        · dsimp only at h
          split at h
          · exact Except.noConfusion h
          · injection h with h2
            rw [← h2]
            unfold getUserGroupMembership
            rw [List.find?_eq_none]
            intro x hx
            have hxb := (List.mem_filter.mp hx).2
            have hx2 : ¬ (x.userId = userId ∧ x.groupId = groupId) := by
              intro hand
              rw [decide_eq_true hand] at hxb
              exact absurd hxb (by decide)
            exact fun h1 => hx2 (of_decide_eq_true h1)

/-- Witness for C8 (amended): ADMIN aaron removing MEMBER mary succeeds, and
mary's membership row is gone from the resulting database. -/
theorem C8_remove_member_permission_matrix_witness :
    (removeUserFromGroup "gx" "mary" "aaron" dbRoles).isOk = true ∧
    getUserGroupMembership "mary" "gx"
      (Db.mk [Group.mk "gx" "olivia"]
        [GroupMember.mk "olivia" "gx" .OWNER "Olivia",
         GroupMember.mk "aaron" "gx" .ADMIN "Aaron",
         GroupMember.mk "abby" "gx" .ADMIN "Abby"] [] 1 0) = none :=
  ⟨(C8_remove_member_permission_matrix.1 dbRoles "gx" "mary" "aaron").mpr
     ⟨⟨GroupMember.mk "aaron" "gx" .ADMIN "Aaron", by decide, Or.inl rfl⟩,
      ⟨GroupMember.mk "mary" "gx" .MEMBER "Mary", by decide, by decide⟩⟩,
   C8_remove_member_permission_matrix.2 dbRoles "gx" "mary" "aaron"
     (Db.mk [Group.mk "gx" "olivia"]
       [GroupMember.mk "olivia" "gx" .OWNER "Olivia",
        GroupMember.mk "aaron" "gx" .ADMIN "Aaron",
        GroupMember.mk "abby" "gx" .ADMIN "Abby"] [] 1 0) (by decide)⟩

/-! ### C9 -/

/-- C9: the socket handshake middleware rejects a missing token, a token on
which `verifyToken` throws (unparseable or expired), and a token whose kind
is not "access" (in particular a refresh token), binding
{userId, email, emailVerified} on success; the REST `authMiddleware` rejects
the same tokens (plus a missing or malformed Authorization header). -/
theorem C9_token_gates (verify : String → Except String JwtPayload) :
    socketAuthenticate verify none = .error "Authentication token required" ∧
    (∀ t msg, verify t = .error msg →
      socketAuthenticate verify (some t) = .error "Invalid authentication token") ∧
    (∀ t p, verify t = .ok p → p.type ≠ "access" →
      socketAuthenticate verify (some t) = .error "Invalid token type") ∧
    (∀ t p, verify t = .ok p → p.type = "access" →
      socketAuthenticate verify (some t) =
        .ok (SocketData.mk p.id p.email p.emailVerified)) ∧
    authMiddleware verify none = .error "Authorization header is missing or malformed" ∧
    (∀ h, ("Bearer ".data.isPrefixOf h.data) = false →
      authMiddleware verify (some h) =
        .error "Authorization header is missing or malformed") ∧
    (∀ h t, ("Bearer ".data.isPrefixOf h.data) = true → splitSpaceSecond h = t →
      t ≠ "" →
      ((∀ msg, verify t = .error msg → authMiddleware verify (some h) = .error msg) ∧
       (∀ p, verify t = .ok p → p.type ≠ "access" →
         authMiddleware verify (some h) =
           .error "Invalid token type. Access token required.") ∧
       (∀ p, verify t = .ok p → p.type = "access" →
         authMiddleware verify (some h) = .ok p))) := by
  refine ⟨rfl, ?_, ?_, ?_, rfl, ?_, ?_⟩
  · intro t msg hv
    simp [socketAuthenticate, hv]
  · intro t p hv htype
    simp [socketAuthenticate, hv, htype]
  · intro t p hv htype
    simp [socketAuthenticate, hv, htype]
  · intro h hpre
    simp [authMiddleware, hpre]
  · intro h t hpre hsplit ht
    refine ⟨?_, ?_, ?_⟩
    · intro msg hv
      simp [authMiddleware, hpre, hsplit, ht, hv]
    · intro p hv htype
      simp [authMiddleware, hpre, hsplit, ht, hv, htype]
    · intro p hv htype
      simp [authMiddleware, hpre, hsplit, ht, hv, htype]

/-- Witness for C9: under the fixture verifier, a refresh token, an expired
token and a missing token are rejected by both gates and an access token is
accepted with its claims bound. -/
theorem C9_token_gates_witness :
    socketAuthenticate exVerify (some "ref") = .error "Invalid token type" ∧
    socketAuthenticate exVerify (some "expd") = .error "Invalid authentication token" ∧
    socketAuthenticate exVerify none = .error "Authentication token required" ∧
    socketAuthenticate exVerify (some "acc") =
      .ok (SocketData.mk "u1" (some "u1@x") true) ∧
    authMiddleware exVerify (some "Bearer ref") =
      .error "Invalid token type. Access token required." ∧
    authMiddleware exVerify (some "Bearer acc") =
      .ok (JwtPayload.mk "u1" (some "u1@x") true "access") :=
  ⟨(C9_token_gates exVerify).2.2.1 "ref"
     (JwtPayload.mk "u1" (some "u1@x") true "refresh") rfl (by decide),
   (C9_token_gates exVerify).2.1 "expd" "Token has expired" rfl,
   (C9_token_gates exVerify).1,
   (C9_token_gates exVerify).2.2.2.1 "acc"
     (JwtPayload.mk "u1" (some "u1@x") true "access") rfl rfl,
   ((C9_token_gates exVerify).2.2.2.2.2.2 "Bearer ref" "ref" (by decide) (by decide)
     (by decide)).2.1 (JwtPayload.mk "u1" (some "u1@x") true "refresh") rfl (by decide),
   ((C9_token_gates exVerify).2.2.2.2.2.2 "Bearer acc" "acc" (by decide) (by decide)
     (by decide)).2.2 (JwtPayload.mk "u1" (some "u1@x") true "access") rfl rfl⟩

/-! ### C10 -/

/-- Counterexample for C10: the claim contrasts the typing handlers with
`leave_group` "which emit an error event on the same failures" — but
`leave_group` performs no membership check: non-member bob's `leave_group`
emits no error at all (he gets `left_group_success`), while the same bob's
`join_group` does error. -/
theorem C10_leave_group_no_membership_error_counterexample :
    verifyGroupMembership "bob" "g1" exSys.db = false ∧
    ((leaveGroupHandler "bob" "s9" (some "g1") exSys).2.any
      (fun em => em.2.isError)) = false ∧
    ((joinGroupHandler "bob" "s9" (some "g1") exSys).2.any
      (fun em => em.2.isError)) = true :=
  ⟨by decide, by decide, by decide⟩

/-- C10 (amended): `typing_start`/`typing_stop` return silently — no event,
state untouched — when the groupId is missing/invalid, the sender is not a
member, or the session is not joined to the room.  In contrast `join_group`,
`send_message`, `get_group_messages` and `get_room_info` emit an error event
on an invalid groupId and on non-membership (and `send_message` also when the
session is not joined); `leave_group` emits an error only on an invalid
groupId. -/
theorem C10_typing_failures_silent :
    (∀ (userId socketId : String) (s : Sys) (gid : Option String),
      validGroupId gid = false →
      typingStartHandler userId socketId (TypingPayload.mk gid) s = (s, []) ∧
      typingStopHandler userId socketId (TypingPayload.mk gid) s = (s, [])) ∧
    (∀ (userId socketId : String) (s : Sys) (g : String), g ≠ "" →
      verifyGroupMembership userId g s.db = false →
      typingStartHandler userId socketId (TypingPayload.mk (some g)) s = (s, []) ∧
      typingStopHandler userId socketId (TypingPayload.mk (some g)) s = (s, [])) ∧
    (∀ (userId socketId : String) (s : Sys) (g : String), g ≠ "" →
      verifyGroupMembership userId g s.db = true →
      (socketId, roomName g) ∉ s.rooms →
      typingStartHandler userId socketId (TypingPayload.mk (some g)) s = (s, []) ∧
      typingStopHandler userId socketId (TypingPayload.mk (some g)) s = (s, [])) ∧
    (∀ (userId socketId : String) (s : Sys) (gid : Option String)
       (lim cur : Option Nat) (ty : Option MessageType) (rep : Option Nat)
       (c : Option String), validGroupId gid = false →
      emitsErrorToSender (joinGroupHandler userId socketId gid s).2 = true ∧
      emitsErrorToSender (leaveGroupHandler userId socketId gid s).2 = true ∧
      emitsErrorToSender (sendMessageHandler userId socketId
        (SendMessagePayload.mk gid c ty rep) s).2 = true ∧
      emitsErrorToSender (getGroupMessagesHandler userId socketId
        (GetMessagesPayload.mk gid lim cur) s).2 = true ∧
      emitsErrorToSender (getRoomInfoHandler userId socketId
        (TypingPayload.mk gid) s).2 = true) ∧
    (∀ (userId socketId : String) (s : Sys) (g : String)
       (lim cur : Option Nat) (ty : Option MessageType) (rep : Option Nat)
       (c : Option String), g ≠ "" →
      verifyGroupMembership userId g s.db = false →
      emitsErrorToSender (joinGroupHandler userId socketId (some g) s).2 = true ∧
      emitsErrorToSender (sendMessageHandler userId socketId
        (SendMessagePayload.mk (some g) c ty rep) s).2 = true ∧
      emitsErrorToSender (getGroupMessagesHandler userId socketId
        (GetMessagesPayload.mk (some g) lim cur) s).2 = true ∧
      emitsErrorToSender (getRoomInfoHandler userId socketId
        (TypingPayload.mk (some g)) s).2 = true) ∧
    (∀ (userId socketId : String) (s : Sys) (g : String)
       (ty : Option MessageType) (rep : Option Nat) (c : Option String),
      g ≠ "" → verifyGroupMembership userId g s.db = true →
      (socketId, roomName g) ∉ s.rooms →
      emitsErrorToSender (sendMessageHandler userId socketId
        (SendMessagePayload.mk (some g) c ty rep) s).2 = true) := by
  have herr : ∀ (msg code : String),
      emitsErrorToSender [(Target.sender, Event.error msg code)] = true := by
    intro msg code
    simp [emitsErrorToSender, Event.isError]
  refine ⟨?_, ?_, ?_, ?_, ?_, ?_⟩
  · intro userId socketId s gid hbad
    constructor
    · unfold typingStartHandler
      rw [if_pos hbad]
    · unfold typingStopHandler
      rw [if_pos hbad]
  · intro userId socketId s g hg hm
    have hv : ¬ (validGroupId (some g) = false) := by simp [validGroupId, hg]
    constructor
    · unfold typingStartHandler
      rw [if_neg hv]
      dsimp only [Option.getD]
      rw [if_pos hm]
    · unfold typingStopHandler
      rw [if_neg hv]
      dsimp only [Option.getD]
      rw [if_pos hm]
  · intro userId socketId s g hg hm hnr
    have hv : ¬ (validGroupId (some g) = false) := by simp [validGroupId, hg]
    have hm2 : ¬ (verifyGroupMembership userId g s.db = false) := by simp [hm]
    constructor
    · unfold typingStartHandler
      rw [if_neg hv]
      dsimp only [Option.getD]
      rw [if_neg hm2, if_pos (decide_eq_true hnr)]
    · unfold typingStopHandler
      rw [if_neg hv]
      dsimp only [Option.getD]
      rw [if_neg hm2, if_pos (decide_eq_true hnr)]
  · intro userId socketId s gid lim cur ty rep c hbad
    refine ⟨?_, ?_, ?_, ?_, ?_⟩
    · unfold joinGroupHandler
      rw [if_pos hbad]
      exact herr _ _
    · unfold leaveGroupHandler
      rw [if_pos hbad]
      exact herr _ _
    · unfold sendMessageHandler
      dsimp only
      by_cases hcb : (match c with
        | none => true
        | some cc => decide (jsTrim cc = "")) = true
      · rw [if_pos hcb]
        exact herr _ _
      · rw [if_neg hcb, if_pos hbad]
        exact herr _ _
    · unfold getGroupMessagesHandler
      rw [if_pos hbad]
      exact herr _ _
    · unfold getRoomInfoHandler
      rw [if_pos hbad]
      exact herr _ _
  · intro userId socketId s g lim cur ty rep c hg hm
    have hv : ¬ (validGroupId (some g) = false) := by simp [validGroupId, hg]
    refine ⟨?_, ?_, ?_, ?_⟩
    · unfold joinGroupHandler
      rw [if_neg hv]
      dsimp only [Option.getD]
      rw [if_pos hm]
      exact herr _ _
    · unfold sendMessageHandler
      dsimp only
      by_cases hcb : (match c with
        | none => true
        | some cc => decide (jsTrim cc = "")) = true
      · rw [if_pos hcb]
        exact herr _ _
      · rw [if_neg hcb, if_neg hv]
        dsimp only [Option.getD]
        rw [if_pos hm]
        exact herr _ _
    · unfold getGroupMessagesHandler
      rw [if_neg hv]
      dsimp only [Option.getD]
      rw [if_pos hm]
      exact herr _ _
    · unfold getRoomInfoHandler
      rw [if_neg hv]
      dsimp only [Option.getD]
      rw [if_pos hm]
      exact herr _ _
  · intro userId socketId s g ty rep c hg hm hnr
    have hv : ¬ (validGroupId (some g) = false) := by simp [validGroupId, hg]
    have hm2 : ¬ (verifyGroupMembership userId g s.db = false) := by simp [hm]
    unfold sendMessageHandler
    dsimp only
    by_cases hcb : (match c with
      | none => true
      | some cc => decide (jsTrim cc = "")) = true
    · rw [if_pos hcb]
      exact herr _ _
    · rw [if_neg hcb, if_neg hv]
      dsimp only [Option.getD]
      rw [if_neg hm2, if_pos (decide_eq_true hnr)]
      exact herr _ _

/-- Witness for C10 (amended): concrete silent typing failures and a
contrasting error from `join_group`. -/
theorem C10_typing_failures_silent_witness :
    typingStartHandler "alice" "s1" (TypingPayload.mk none) exSys = (exSys, []) ∧
    typingStartHandler "bob" "s9" (TypingPayload.mk (some "g1")) exSys = (exSys, []) ∧
    typingStopHandler "alice" "s7" (TypingPayload.mk (some "g1")) exSys = (exSys, []) ∧
    emitsErrorToSender (joinGroupHandler "bob" "s9" (some "g1") exSys).2 = true :=
  ⟨(C10_typing_failures_silent.1 "alice" "s1" exSys none (by decide)).1,
   (C10_typing_failures_silent.2.1 "bob" "s9" exSys "g1" (by decide) (by decide)).1,
   (C10_typing_failures_silent.2.2.1 "alice" "s7" exSys "g1" (by decide) (by decide)
     (by decide)).2,
   (C10_typing_failures_silent.2.2.2.2.1 "bob" "s9" exSys "g1" none none none none
     none (by decide) (by decide)).1⟩

end ChatHono
